import Mathlib

/-!
Shallow embedding of daemonrunner.py (class DaemonRunner) and of the
lock-file / OS collaborators it is built on.

The DaemonRunner methods are translated line by line from
src/daemonrunner.py.  The PID lock file and the OS signal interface are
external collaborators (the daemon.pidfile package and os.kill); they are
modelled from the spec's contracts for them (sections 4.1, 4.2 and 6 of
spec.md), as noted on each definition.

Each controller action is modelled as a pure function from an OS world
(which processes are alive, and which errno a signal delivery to a live
process would fail with) and a lock-file state to a final lock-file state,
a trace of observable events (messages written to a stream, the
daemonization context being opened, the callback being run), and an
optional uncaught exception.  The world is fixed for the duration of one
action: the embedding is sequential, matching the single-threaded control
flow of the source.
-/

namespace DRunner

/-- Errno value with which signal delivery fails when the target process
does not exist (errno.ESRCH, "no such process"). -/
def ESRCH : Nat := 3

/-- Errno value for a permission failure of signal delivery (errno.EPERM),
used only to build concrete worlds in witnesses. -/
def EPERM : Nat := 1

/-- Numeric value of the signal.SIG_DFL constant that _is_pidfile_stale
passes to os.kill.  SIG_DFL equals 0, so the delivery is the classic
"kill with signal 0" existence probe: it delivers no actual signal and
cannot terminate or otherwise affect the probed process. -/
def SIG_DFL : Nat := 0

/-- Numeric value of signal.SIGTERM, the termination signal sent by
_terminate_daemon_process. -/
def SIGTERM : Nat := 15

/-- The OS world seen by one controller action: which pids are alive, and
the errno (if any) with which a signal delivery to a live pid fails.
Delivery to a dead pid always fails with ESRCH, per kill(2). -/
structure World where
  live : Nat → Bool
  failErrno : Nat → Nat → Option Nat

/-- Modelled from the spec: os.kill as seen by the controller.  Returns
none when delivery succeeds and some errno when it raises OSError.
Delivery to a nonexistent process fails with ESRCH; delivery to a live
process succeeds or fails with the world's errno for that pid and signal.
The world is not changed: termination of a signaled process happens
asynchronously, outside the modelled action (fire-and-forget). -/
def osKill (w : World) (pid sig : Nat) : Option Nat :=
  if w.live pid then w.failErrno pid sig else some ESRCH

/-- A world is well behaved when signal delivery to a live process never
fails with ESRCH, matching kill(2), which reserves ESRCH for targets that
do not exist. -/
def World.ok (w : World) : Prop :=
  ∀ pid sig, w.live pid = true → w.failErrno pid sig ≠ some ESRCH

/-- Modelled from the spec: the on-disk PID lock file (section 4.1).
recordedPid is the parsable pid recorded in the file, or none when the
file is absent or unparsable; claimHeld says whether the filesystem-level
exclusive claim is currently held or inferred held. -/
structure LockFile where
  recordedPid : Option Nat
  claimHeld : Bool
  deriving DecidableEq, Repr

/-- Modelled from the spec: readPid is non-destructive and returns the
recorded pid, or none when the file is absent or unparsable. -/
def readPid (lf : LockFile) : Option Nat :=
  lf.recordedPid

/-- Modelled from the spec: isLocked is true iff the file contains a
parsable pid and the filesystem-level exclusive claim is held or inferred
held by the recorded pid. -/
def isLocked (lf : LockFile) : Bool :=
  lf.recordedPid.isSome && lf.claimHeld

/-- Modelled from the spec: breakLock unconditionally clears the recorded
pid and removes the file, regardless of the current holder. -/
def breakLock (_lf : LockFile) : LockFile :=
  { recordedPid := none, claimHeld := false }

/-- The status messages the controller can emit, one constructor per
format string of src/daemonrunner.py.  The pid of the already-running and
running-with-pid messages is the raw result of read_pid, hence optional. -/
inductive Msg
  | alreadyRunning (pid : Option Nat)
  | starting
  | notRunning
  | stopped
  | runningWithPid (pid : Option Nat)
  | unknown
  deriving DecidableEq, Repr

/-- Rendering of each message constructor as the literal text written by
the source (Python prints None for an absent pid). -/
def pidText : Option Nat → String
  | some p => toString p
  | none => "None"

/-- Literal message texts of src/daemonrunner.py. -/
def Msg.render : Msg → String
  | Msg.alreadyRunning p => "Already running with pid: " ++ pidText p ++ "\n"
  | Msg.starting => "Starting\n"
  | Msg.notRunning => "Not running\n"
  | Msg.stopped => "Stopped\n"
  | Msg.runningWithPid p => "Running with pid: " ++ pidText p ++ "\n"
  | Msg.unknown => "Unknown\n"

/-- The two output streams _emit_message can write to.  Its default
stream, used when a call site passes no stream, is stderr. -/
inductive StdStream
  | stdout
  | stderr
  deriving DecidableEq, Repr

/-- Observable events of one controller action, in order. -/
inductive Event
  | emit (m : Msg) (s : StdStream)
  | openContext
  | runCallback
  deriving DecidableEq, Repr

/-- Uncaught exceptions a controller action can propagate.
stopError is DaemonRunnerStopError, whose message carries the target pid;
typeError models os.kill(None, SIGTERM) raising TypeError, which the
except OSError clause of _terminate_daemon_process does not catch. -/
inductive RunnerError
  | stopError (pid : Nat)
  | typeError
  deriving DecidableEq, Repr

/-- Translation of DaemonRunner._is_pidfile_stale: read the pid; when
present, deliver SIG_DFL to it with os.kill; the file is stale exactly
when that delivery raises OSError with errno ESRCH.  An absent pid, a
successful delivery, and a failure with any other errno all leave the
result False. -/
def isPidfileStale (w : World) (lf : LockFile) : Bool :=
  match readPid lf with
  | none => false
  | some pid =>
    match osKill w pid SIG_DFL with
    | some e => e == ESRCH
    | none => false

/-- Modelled from the spec: DaemonContext.open (section 6) performs
detachment and acquires the lock as one setup step, recording the new
daemon's own pid in the lock file. -/
def contextOpen (ownPid : Nat) (_lf : LockFile) : LockFile :=
  { recordedPid := some ownPid, claimHeld := true }

/-- Translation of DaemonRunner._start: break the lock when stale, then
either report the already-running pid on stderr (the default stream of
_emit_message) or emit Starting on stdout, open the daemon context and run
the callback.  The method itself raises nothing. -/
def start (w : World) (ownPid : Nat) (lf : LockFile) : LockFile × List Event :=
  let lf1 := if isPidfileStale w lf then breakLock lf else lf
  if isLocked lf1 then
    (lf1, [Event.emit (Msg.alreadyRunning (readPid lf1)) StdStream.stderr])
  else
    (contextOpen ownPid lf1,
      [Event.emit Msg.starting StdStream.stdout, Event.openContext, Event.runCallback])

/-- Translation of DaemonRunner._terminate_daemon_process: re-read the
pid and deliver SIGTERM with os.kill; any OSError (whatever its errno,
ESRCH included) is turned into DaemonRunnerStopError carrying the pid.
A none pid would make os.kill raise TypeError, which is not caught. -/
def terminateDaemonProcess (w : World) (lf : LockFile) : Option RunnerError :=
  match readPid lf with
  | none => some RunnerError.typeError
  | some pid =>
    match osKill w pid SIGTERM with
    | none => none
    | some _ => some (RunnerError.stopError pid)

/-- Translation of DaemonRunner._stop: with no recorded pid, emit
Not running on stderr (the default stream of _emit_message) and return;
with a stale pid, break the lock silently; otherwise terminate the
recorded process, propagating its error with nothing emitted and the lock
untouched, and emit Stopped on stdout on success. -/
def stop (w : World) (lf : LockFile) : LockFile × List Event × Option RunnerError :=
  match readPid lf with
  | none => (lf, [Event.emit Msg.notRunning StdStream.stderr], none)
  | some _ =>
    if isPidfileStale w lf then
      (breakLock lf, [], none)
    else
      match terminateDaemonProcess w lf with
      | some e => (lf, [], some e)
      | none => (lf, [Event.emit Msg.stopped StdStream.stdout], none)

/-- Translation of DaemonRunner._restart: run _stop, then unconditionally
break the lock, then run _start.  An exception from _stop propagates, so
the break and the start phase are skipped. -/
def restart (w : World) (ownPid : Nat) (lf : LockFile) :
    LockFile × List Event × Option RunnerError :=
  match stop w lf with
  | (lf1, t1, some e) => (lf1, t1, some e)
  | (lf1, t1, none) =>
    let p := start w ownPid (breakLock lf1)
    (p.1, t1 ++ p.2, none)

/-- Translation of DaemonRunner._show_status: with no readable pid, emit
Not running on stdout; with a pid and the lock held, emit
Running with pid on stdout; with a pid but no claim detected, emit
Unknown on stdout.  Only read_pid and is_locked are called, so the lock
file is returned unchanged. -/
def showStatus (lf : LockFile) : LockFile × List Event :=
  match readPid lf with
  | none => (lf, [Event.emit Msg.notRunning StdStream.stdout])
  | some _ =>
    if isLocked lf then
      (lf, [Event.emit (Msg.runningWithPid (readPid lf)) StdStream.stdout])
    else
      (lf, [Event.emit Msg.unknown StdStream.stdout])

/-- Result of a successful construction: the TimeoutPIDLockFile is built
from the path and the acquire timeout exactly as given, with no timeout
validation anywhere. -/
structure RunnerConfig where
  pidpath : String
  timeout : Int
  deriving DecidableEq, Repr

/-- Exceptions construction can raise.  daemonRunnerError is the
DaemonRunnerError raised for a callback with positional arguments;
attributeError models the relative-path branch of _make_pidlockfile,
whose message expression evaluates a nonexistent attribute of a string
and therefore raises AttributeError before the intended ValueError is
built. -/
inductive ConstructError
  | daemonRunnerError
  | attributeError
  deriving DecidableEq, Repr

/-- Translation of os.path.isabs for POSIX paths: the path is absolute
iff it begins with a slash, checked on the first character of the
path. -/
def isabs (p : String) : Bool :=
  p.data.head? == some '/'

/-- Translation of DaemonRunner._make_pidlockfile: paths are modelled as
strings, so the isinstance basestring check always passes; a relative
path raises (see ConstructError.attributeError); the timeout is handed to
TimeoutPIDLockFile unvalidated. -/
def makePidlockfile (path : String) (timeout : Int) : Except ConstructError RunnerConfig :=
  if isabs path then Except.ok { pidpath := path, timeout := timeout }
  else Except.error ConstructError.attributeError

/-- Translation of DaemonRunner.__init__: inspect the callback's argspec
and raise DaemonRunnerError when it declares any positional argument
(callbackArgCount is the length of argspec.args), then build the lock
file via _make_pidlockfile.  Nothing is returned on failure: the object
is never partially constructed. -/
def runnerInit (callbackArgCount : Nat) (pidpath : String) (timeout : Int) :
    Except ConstructError RunnerConfig :=
  if callbackArgCount != 0 then Except.error ConstructError.daemonRunnerError
  else makePidlockfile pidpath timeout

/-! Concrete worlds used by witnesses and counterexamples. -/

/-- A world with no live process at all; every delivery fails with ESRCH. -/
def wAllDead : World :=
  { live := fun _ => false, failErrno := fun _ _ => none }

/-- A world whose only live process is pid 42, with every delivery to it
succeeding. -/
def wLive42 : World :=
  { live := fun p => p == 42, failErrno := fun _ _ => none }

/-- A world whose only live process is pid 7, and where delivering SIGTERM
to it fails with EPERM while the signal-0 probe succeeds. -/
def wPerm7 : World :=
  { live := fun p => p == 7,
    failErrno := fun p s => if p == 7 && s == SIGTERM then some EPERM else none }

theorem wAllDead_ok : wAllDead.ok := by
  intro p s h
  simp [wAllDead] at h

theorem wLive42_ok : wLive42.ok := by
  intro p s _
  simp [wLive42, World.ok]

theorem wPerm7_ok : wPerm7.ok := by
  intro p s _
  simp only [wPerm7]
  split <;> simp [EPERM, ESRCH]

/-! Helper lemmas about the staleness probe and the stop action. -/

theorem stale_iff (w : World) (lf : LockFile) :
    isPidfileStale w lf = true ↔
      ∃ pid, readPid lf = some pid ∧ osKill w pid SIG_DFL = some ESRCH := by
  obtain ⟨rp, ch⟩ := lf
  cases rp with
  | none => simp [isPidfileStale, readPid]
  | some pid =>
    cases hk : osKill w pid SIG_DFL with
    | none => simp [isPidfileStale, readPid, hk]
    | some e => simp [isPidfileStale, readPid, hk, beq_iff_eq]

theorem not_stale_of_live (w : World) (lf : LockFile) (pid : Nat) (hok : w.ok)
    (hpid : readPid lf = some pid) (hlive : w.live pid = true) :
    isPidfileStale w lf = false := by
  have hfail := hok pid SIG_DFL hlive
  obtain ⟨rp, ch⟩ := lf
  simp only [readPid] at hpid
  subst hpid
  simp only [isPidfileStale, readPid, osKill, hlive, if_true]
  cases hfe : w.failErrno pid SIG_DFL with
  | none => rfl
  | some e =>
    have he : e ≠ ESRCH := fun h => hfail (by rw [hfe, h])
    simp [he]

theorem stale_of_dead (w : World) (lf : LockFile) (pid : Nat)
    (hpid : readPid lf = some pid) (hdead : w.live pid = false) :
    isPidfileStale w lf = true := by
  obtain ⟨rp, ch⟩ := lf
  simp only [readPid] at hpid
  subst hpid
  simp [isPidfileStale, readPid, osKill, hdead]

theorem stop_live_success (w : World) (lf : LockFile) (pid : Nat) (hok : w.ok)
    (hpid : readPid lf = some pid) (hlive : w.live pid = true)
    (hterm : w.failErrno pid SIGTERM = none) :
    stop w lf = (lf, [Event.emit Msg.stopped StdStream.stdout], none) := by
  have hns := not_stale_of_live w lf pid hok hpid hlive
  obtain ⟨rp, ch⟩ := lf
  simp only [readPid] at hpid
  subst hpid
  simp [stop, readPid, hns, terminateDaemonProcess, osKill, hlive, hterm]

theorem stop_live_fail (w : World) (lf : LockFile) (pid : Nat) (e : Nat) (hok : w.ok)
    (hpid : readPid lf = some pid) (hlive : w.live pid = true)
    (hterm : w.failErrno pid SIGTERM = some e) :
    stop w lf = (lf, [], some (RunnerError.stopError pid)) := by
  have hns := not_stale_of_live w lf pid hok hpid hlive
  obtain ⟨rp, ch⟩ := lf
  simp only [readPid] at hpid
  subst hpid
  simp [stop, readPid, hns, terminateDaemonProcess, osKill, hlive, hterm]

theorem start_fresh (w : World) (ownPid : Nat) (lf : LockFile) :
    start w ownPid (breakLock lf) =
      ({ recordedPid := some ownPid, claimHeld := true },
        [Event.emit Msg.starting StdStream.stdout, Event.openContext,
          Event.runCallback]) := by
  simp [start, isPidfileStale, readPid, breakLock, isLocked, contextOpen]

theorem stop_dead_breaks (w : World) (lf : LockFile) (pid : Nat)
    (hpid : readPid lf = some pid) (hdead : w.live pid = false) :
    stop w lf = (breakLock lf, [], none) := by
  have hst := stale_of_dead w lf pid hpid hdead
  obtain ⟨rp, ch⟩ := lf
  simp only [readPid] at hpid
  subst hpid
  simp [stop, readPid, hst]

/-- C1: for every controller whose lock file records the pid of a live
process (state Running: pid recorded, holder live, claim held), start
emits the message Already running with pid on stderr, returns without
invoking the callback and without raising (start is a total function of
the embedding and is shown to produce exactly this one emit event), and
leaves the lock file unchanged; hence a second start issued while the
first instance is live never runs the callback a second time. -/
theorem C1_start_running_already_running (w : World) (ownPid : Nat) (lf : LockFile)
    (pid : Nat) (hok : w.ok) (hpid : readPid lf = some pid)
    (hlive : w.live pid = true) (hheld : lf.claimHeld = true) :
    start w ownPid lf =
      (lf, [Event.emit (Msg.alreadyRunning (some pid)) StdStream.stderr]) := by
  have hns := not_stale_of_live w lf pid hok hpid hlive
  obtain ⟨rp, ch⟩ := lf
  simp only [readPid] at hpid
  subst hpid
  simp only at hheld
  subst hheld
  simp [start, hns, isLocked, readPid]

/-- Witness for C1: in a world whose only live process is pid 42, start
on a lock recording pid 42 reports it on stderr and changes nothing. -/
theorem C1_witness :
    start wLive42 5 { recordedPid := some 42, claimHeld := true } =
      ({ recordedPid := some 42, claimHeld := true },
        [Event.emit (Msg.alreadyRunning (some 42)) StdStream.stderr]) :=
  C1_start_running_already_running wLive42 5 _ 42 wLive42_ok rfl rfl rfl

/-- C2: the staleness probe returns true iff the lock file records a pid
and delivery of SIG_DFL (signal 0) to it fails specifically with ESRCH
(no such process); it is false when no pid is recorded, and false on
probe success or failure with any other errno.  In any well-behaved
world, this is equivalent to the recorded pid not being live.  The probe
is a pure function of the world and returns only a Bool, so it cannot
terminate or otherwise affect the probed process; the signal it delivers
is SIG_DFL, whose value 0 makes the delivery a pure existence check. -/
theorem C2_stale_probe_spec (w : World) (lf : LockFile) :
    (isPidfileStale w lf = true ↔
      ∃ pid, readPid lf = some pid ∧ osKill w pid SIG_DFL = some ESRCH)
    ∧ (w.ok →
      (isPidfileStale w lf = true ↔
        ∃ pid, readPid lf = some pid ∧ w.live pid = false)) := by
  refine ⟨stale_iff w lf, fun hok => ?_⟩
  constructor
  · intro h
    obtain ⟨pid, hpid, hk⟩ := (stale_iff w lf).mp h
    refine ⟨pid, hpid, ?_⟩
    cases hv : w.live pid with
    | false => rfl
    | true =>
      simp only [osKill, hv, if_true] at hk
      exact absurd hk (hok pid SIG_DFL hv)
  · rintro ⟨pid, hpid, hdead⟩
    exact stale_of_dead w lf pid hpid hdead

/-- Witness for C2: in a world with no live process, a lock recording
pid 9 is stale. -/
theorem C2_witness :
    isPidfileStale wAllDead { recordedPid := some 9, claimHeld := true } = true :=
  ((C2_stale_probe_spec wAllDead _).2 wAllDead_ok).mpr ⟨9, rfl, rfl⟩

/-- C6: status is read-only and reports exactly one of three outcomes on
stdout: Not running when no pid is readable, Running with pid when a pid
is recorded and the lock is held, and Unknown when a pid is recorded but
the filesystem-level claim is not detected held; in every case the lock
file is returned unchanged. -/
theorem C6_show_status_spec (lf : LockFile) :
    (readPid lf = none →
      showStatus lf = (lf, [Event.emit Msg.notRunning StdStream.stdout]))
    ∧ (∀ pid, readPid lf = some pid → lf.claimHeld = true →
      showStatus lf =
        (lf, [Event.emit (Msg.runningWithPid (some pid)) StdStream.stdout]))
    ∧ (∀ pid, readPid lf = some pid → lf.claimHeld = false →
      showStatus lf = (lf, [Event.emit Msg.unknown StdStream.stdout]))
    ∧ (showStatus lf).1 = lf := by
  obtain ⟨rp, ch⟩ := lf
  refine ⟨?_, ?_, ?_, ?_⟩
  · intro h
    simp only [readPid] at h
    subst h
    simp [showStatus, readPid]
  · intro pid h hh
    simp only [readPid] at h
    subst h
    simp only at hh
    subst hh
    simp [showStatus, readPid, isLocked]
  · intro pid h hh
    simp only [readPid] at h
    subst h
    simp only at hh
    subst hh
    simp [showStatus, readPid, isLocked]
  · cases rp <;> cases ch <;> simp [showStatus, readPid, isLocked]

/-- Witness for C6: a held lock recording pid 5 is reported as running
with pid 5 on stdout, with the lock unchanged. -/
theorem C6_witness :
    showStatus { recordedPid := some 5, claimHeld := true } =
      ({ recordedPid := some 5, claimHeld := true },
        [Event.emit (Msg.runningWithPid (some 5)) StdStream.stdout]) :=
  (C6_show_status_spec _).2.1 5 rfl rfl

/-- C7: stop on a controller in state Stopped (no pid readable from the
lock file) emits Not running, returns with no exception, and leaves the
lock file completely unchanged, in every world. -/
theorem C7_stop_not_running_noop (w : World) (lf : LockFile)
    (hpid : readPid lf = none) :
    stop w lf = (lf, [Event.emit Msg.notRunning StdStream.stderr], none) := by
  obtain ⟨rp, ch⟩ := lf
  simp only [readPid] at hpid
  subst hpid
  simp [stop, readPid]

/-- Witness for C7: stop on an absent lock file emits Not running and
changes nothing. -/
theorem C7_witness :
    stop wAllDead { recordedPid := none, claimHeld := false } =
      ({ recordedPid := none, claimHeld := false },
        [Event.emit Msg.notRunning StdStream.stderr], none) :=
  C7_stop_not_running_noop wAllDead _ rfl

/-- Counterexample to C3: pid 42 is live and still holds the lock when
the start phase of restart runs (the world never changes during the
action, so the fire-and-forget SIGTERM has not made the holder release
anything), yet restart runs the callback and ends with the lock owned by
the new instance (pid 100), not unchanged in the hands of pid 42: the
start phase is not an idempotent no-op and the live holder's lock is
broken. -/
theorem C3_counterexample :
    Event.runCallback ∈
        (restart wLive42 100 { recordedPid := some 42, claimHeld := true }).2.1 ∧
      (restart wLive42 100 { recordedPid := some 42, claimHeld := true }).1 ≠
        { recordedPid := some 42, claimHeld := true } := by
  decide

/-- C3 as amended: during restart, even when the previously signaled
process is still live and still holds the lock when the start phase runs,
restart unconditionally breaks the lock after the stop phase, so the
start phase observes the lock as free and starts a new instance (emitting
Starting, opening the context and running the callback) instead of
behaving as an idempotent no-op; the live holder's lock is broken and
ends up owned by the new instance. -/
theorem C3_restart_steals_live_lock (w : World) (ownPid : Nat) (lf : LockFile)
    (pid : Nat) (hok : w.ok) (hpid : readPid lf = some pid)
    (hlive : w.live pid = true) (_hheld : lf.claimHeld = true)
    (hterm : w.failErrno pid SIGTERM = none) :
    restart w ownPid lf =
      ({ recordedPid := some ownPid, claimHeld := true },
        [Event.emit Msg.stopped StdStream.stdout,
          Event.emit Msg.starting StdStream.stdout,
          Event.openContext, Event.runCallback], none) := by
  have hstop := stop_live_success w lf pid hok hpid hlive hterm
  unfold restart
  simp only [hstop]
  simp [start_fresh]

/-- Witness for the amended C3: restart against live holder 42 hands the
lock to the new instance with pid 200 and runs the callback. -/
theorem C3_witness :
    restart wLive42 200 { recordedPid := some 42, claimHeld := true } =
      ({ recordedPid := some 200, claimHeld := true },
        [Event.emit Msg.stopped StdStream.stdout,
          Event.emit Msg.starting StdStream.stdout,
          Event.openContext, Event.runCallback], none) :=
  C3_restart_steals_live_lock wLive42 200 _ 42 wLive42_ok rfl rfl rfl rfl

/-- C4: in a well-behaved world, stop propagates a StopError carrying the
recorded pid iff SIGTERM delivery to that pid fails with an OS error
other than ESRCH; when delivery would fail precisely because the process
no longer exists, stop instead takes the staleness branch, breaking the
lock without error. -/
theorem C4_stop_error_iff (w : World) (lf : LockFile) (pid : Nat)
    (hok : w.ok) (hpid : readPid lf = some pid) :
    ((stop w lf).2.2 = some (RunnerError.stopError pid) ↔
      ∃ e, e ≠ ESRCH ∧ osKill w pid SIGTERM = some e)
    ∧ (osKill w pid SIGTERM = some ESRCH → stop w lf = (breakLock lf, [], none)) := by
  cases hv : w.live pid with
  | true =>
    constructor
    · constructor
      · intro h
        cases hfe : w.failErrno pid SIGTERM with
        | none =>
          rw [stop_live_success w lf pid hok hpid hv hfe] at h
          simp at h
        | some e =>
          refine ⟨e, fun hesrch => hok pid SIGTERM hv (by rw [hfe, hesrch]), ?_⟩
          simp [osKill, hv, hfe]
      · rintro ⟨e, _, hk⟩
        simp only [osKill, hv, if_true] at hk
        rw [stop_live_fail w lf pid e hok hpid hv hk]
    · intro hk
      simp only [osKill, hv, if_true] at hk
      exact absurd hk (hok pid SIGTERM hv)
  | false =>
    have hstop := stop_dead_breaks w lf pid hpid hv
    constructor
    · rw [hstop]
      constructor
      · intro h
        simp at h
      · rintro ⟨e, hne, hk⟩
        simp only [osKill, hv, if_false] at hk
        exact absurd (Option.some.inj hk).symm hne
    · intro _
      exact hstop

/-- Witness for C4: pid 7 is live but SIGTERM delivery to it fails with
EPERM, so stop propagates StopError carrying pid 7. -/
theorem C4_witness :
    (stop wPerm7 { recordedPid := some 7, claimHeld := true }).2.2 =
      some (RunnerError.stopError 7) :=
  (C4_stop_error_iff wPerm7 { recordedPid := some 7, claimHeld := true } 7
    wPerm7_ok rfl).1.mpr ⟨EPERM, by decide, rfl⟩

/-- Counterexample to C5: a restart against live holder 42 emits the
individual Stopped and Starting messages of its stop and start phases,
unsuppressed and on their usual streams, and no combined restarting
message (no such message exists anywhere in the source); there is no
suppression flag to set or clear. -/
theorem C5_counterexample :
    restart wLive42 300 { recordedPid := some 42, claimHeld := true } =
      ({ recordedPid := some 300, claimHeld := true },
        [Event.emit Msg.stopped StdStream.stdout,
          Event.emit Msg.starting StdStream.stdout,
          Event.openContext, Event.runCallback], none) := by
  decide

/-- C5 as amended: restart runs stop, then unconditionally breaks the
lock, then runs start; the individual stop and start messages are emitted
normally (nothing is suppressed and no combined restarting message
exists); and when stop propagates a StopError the error escapes restart,
with the lock left as stop left it and the start phase never run. -/
theorem C5_restart_no_suppression (w : World) (ownPid : Nat) (lf : LockFile)
    (pid : Nat) (hok : w.ok) (hpid : readPid lf = some pid)
    (hlive : w.live pid = true) :
    (w.failErrno pid SIGTERM = none →
      (restart w ownPid lf).2.1 =
          [Event.emit Msg.stopped StdStream.stdout,
            Event.emit Msg.starting StdStream.stdout,
            Event.openContext, Event.runCallback] ∧
        (restart w ownPid lf).2.2 = none)
    ∧ (∀ e, w.failErrno pid SIGTERM = some e →
      restart w ownPid lf = (lf, [], some (RunnerError.stopError pid))) := by
  constructor
  · intro hterm
    have hstop := stop_live_success w lf pid hok hpid hlive hterm
    unfold restart
    simp only [hstop]
    simp [start_fresh]
  · intro e hterm
    have hstop := stop_live_fail w lf pid e hok hpid hlive hterm
    unfold restart
    simp only [hstop]

/-- Witness for the amended C5: when SIGTERM to live pid 7 fails, restart
propagates StopError with nothing emitted and the lock untouched. -/
theorem C5_witness :
    restart wPerm7 77 { recordedPid := some 7, claimHeld := true } =
      ({ recordedPid := some 7, claimHeld := true }, [],
        some (RunnerError.stopError 7)) :=
  (C5_restart_no_suppression wPerm7 77 { recordedPid := some 7, claimHeld := true }
    7 wPerm7_ok rfl rfl).2 EPERM rfl

/-- Counterexample to C8: construction with a valid callback, an absolute
path and the negative timeout -1 succeeds, although the claim demands
that a negative timeout fail validation at construction. -/
theorem C8_counterexample :
    runnerInit 0 "/run/daemon.pid" (-1) =
      Except.ok { pidpath := "/run/daemon.pid", timeout := -1 } := by
  rfl

/-- C8 as amended: construction fails fast, never partially constructing,
exactly when the callback accepts one or more positional arguments or the
path is not absolute; the acquisition timeout is never validated, so any
timeout (negative included) constructs successfully with a compliant
callback and path. -/
theorem C8_init_fails_iff (n : Nat) (p : String) (t : Int) :
    (runnerInit n p t = Except.ok { pidpath := p, timeout := t } ↔
      (n = 0 ∧ isabs p = true))
    ∧ (runnerInit n p t = Except.error ConstructError.daemonRunnerError ↔ n ≠ 0)
    ∧ (runnerInit n p t = Except.error ConstructError.attributeError ↔
      (n = 0 ∧ isabs p = false)) := by
  by_cases hn : n = 0
  · subst hn
    cases hab : isabs p <;> simp [runnerInit, makePidlockfile, hab]
  · have hb : (n != 0) = true := by simpa using hn
    simp [runnerInit, hb, hn]

/-- Counterexample to C9: stop on an empty lock file emits its
Not running message on standard error, not standard output, because
_emit_message defaults to stderr and _stop passes no stream there. -/
theorem C9_counterexample :
    stop wLive42 { recordedPid := none, claimHeld := false } =
      ({ recordedPid := none, claimHeld := false },
        [Event.emit Msg.notRunning StdStream.stderr], none) ∧
    StdStream.stderr ≠ StdStream.stdout := by
  decide

/-- C9 as amended: within start, a message goes to stderr exactly when it
is the already-running message; within stop, a message goes to stderr
exactly when it is stop's Not running message (Stopped goes to stdout);
every status message goes to stdout; the embedding defines no process
exit codes, only these emissions. -/
theorem C9_stream_discipline (w : World) (ownPid : Nat) (lf : LockFile) :
    (∀ m s, Event.emit m s ∈ (start w ownPid lf).2 →
      (s = StdStream.stderr ↔ ∃ p, m = Msg.alreadyRunning p))
    ∧ (∀ m s, Event.emit m s ∈ (stop w lf).2.1 →
      (s = StdStream.stderr ↔ m = Msg.notRunning))
    ∧ (∀ m s, Event.emit m s ∈ (showStatus lf).2 → s = StdStream.stdout) := by
  refine ⟨?_, ?_, ?_⟩
  · intro m s hm
    simp only [start] at hm
    split at hm <;> split at hm <;>
      (simp at hm
       obtain ⟨hm1, hm2⟩ := hm
       subst hm1
       subst hm2
       simp)
  · intro m s hm
    cases hrp : readPid lf with
    | none =>
      simp only [stop, hrp] at hm
      simp at hm
      obtain ⟨hm1, hm2⟩ := hm
      subst hm1
      subst hm2
      simp
    | some pid =>
      simp only [stop, hrp] at hm
      split at hm
      · simp at hm
      · cases hterm : terminateDaemonProcess w lf with
        | none =>
          simp only [hterm] at hm
          simp at hm
          obtain ⟨hm1, hm2⟩ := hm
          subst hm1
          subst hm2
          simp
        | some e =>
          simp only [hterm] at hm
          simp at hm
  · intro m s hm
    cases hrp : readPid lf with
    | none =>
      simp only [showStatus, hrp] at hm
      simp at hm
      exact hm.2
    | some pid =>
      simp only [showStatus, hrp] at hm
      split at hm <;>
        (simp at hm; exact hm.2)

/-- Witness for the amended C9: the already-running message of a start
against live pid 42 is on stderr, and the theorem classifies it so. -/
theorem C9_witness :
    StdStream.stderr = StdStream.stderr ↔
      ∃ p, Msg.alreadyRunning (some 42) = Msg.alreadyRunning p :=
  (C9_stream_discipline wLive42 5 { recordedPid := some 42, claimHeld := true }).1
    (Msg.alreadyRunning (some 42)) StdStream.stderr (by decide)

/-- C10: whenever stop propagates an exception, the lock file is exactly
the one it was given (no break, removal or rewrite), nothing was emitted
(in particular no Stopped message), and the exception is a StopError
carrying the recorded pid: the failed stop is atomic with respect to the
lock state. -/
theorem C10_stop_error_frame (w : World) (lf lf2 : LockFile) (t : List Event)
    (e : RunnerError) (h : stop w lf = (lf2, t, some e)) :
    lf2 = lf ∧ t = [] ∧
      ∃ pid, readPid lf = some pid ∧ e = RunnerError.stopError pid := by
  cases hrp : readPid lf with
  | none =>
    simp only [stop, hrp] at h
    exact Option.noConfusion (congrArg (fun q => q.2.2) h)
  | some pid =>
    by_cases hst : isPidfileStale w lf = true
    · simp only [stop, hrp, hst, if_true] at h
      exact Option.noConfusion (congrArg (fun q => q.2.2) h)
    · have hst' : isPidfileStale w lf = false := by simpa using hst
      simp only [stop, hrp, hst'] at h
      cases hterm : terminateDaemonProcess w lf with
      | none =>
        simp only [hterm] at h
        exact Option.noConfusion (congrArg (fun q => q.2.2) h)
      | some e' =>
        simp only [hterm] at h
        have he' : e' = RunnerError.stopError pid := by
          simp only [terminateDaemonProcess, hrp] at hterm
          cases hk : osKill w pid SIGTERM with
          | none =>
            simp only [hk] at hterm
            exact Option.noConfusion hterm
          | some x =>
            simp only [hk] at hterm
            exact (Option.some.inj hterm).symm
        have h1 : lf = lf2 := congrArg (fun q => q.1) h
        have h2 : ([] : List Event) = t := congrArg (fun q => q.2.1) h
        have h3 : (some e' : Option RunnerError) = some e :=
          congrArg (fun q => q.2.2) h
        exact ⟨h1.symm, h2.symm, pid, rfl,
          ((Option.some.inj h3).symm.trans he')⟩

/-- Witness for C10: stop in a world where SIGTERM to the live holder 7
fails leaves the lock exactly as given, emits nothing, and the escaping
error is StopError 7. -/
theorem C10_witness :
    ({ recordedPid := some 7, claimHeld := true } : LockFile) =
        { recordedPid := some 7, claimHeld := true } ∧
      ([] : List Event) = [] ∧
      ∃ pid, readPid { recordedPid := some 7, claimHeld := true } = some pid ∧
        RunnerError.stopError 7 = RunnerError.stopError pid :=
  C10_stop_error_frame wPerm7 { recordedPid := some 7, claimHeld := true }
    { recordedPid := some 7, claimHeld := true } [] (RunnerError.stopError 7)
    (by decide)

end DRunner
